import Mathlib

/-!
# Verification of the nft-lane record service

Shallow embedding of `src/app.py`: an in-memory NFT table (`nft_store`)
with a monotone id counter (`next_token_id`), and the five HTTP handlers
`health`, `mint_nft`, `get_nft`, `list_nfts` and `submit_handler`.

Modelling conventions:
* Parsed JSON values are `JValue`; JSON numbers are modelled as integers
  (no verified property involves non-integer numerics).
* `await request.json()` in `mint_nft` is modelled as an
  `Except String JValue` argument: `.error msg` is a body that fails JSON
  parsing (the handler's `except` clause turns it into a 500 response
  carrying the message).
* The raw `/submit` payload is modelled by its byte length together with
  the outcome of `data.decode("utf-8")` followed by `json.loads`:
  `none` when either step fails, `some v` when both succeed.
* Timestamps (`datetime.now(timezone.utc).isoformat()`) are passed in as
  an opaque `now : String` argument.
* The Python dict `nft_store` is an insertion-ordered association list
  with unique keys; inserting a fresh key appends at the end, as CPython
  dicts do.
-/

/-- A parsed JSON value (the result of `json.loads`), with numbers
restricted to integers. -/
inductive JValue where
  | null
  | bool (b : Bool)
  | num (n : Int)
  | str (s : String)
  | arr (xs : List JValue)
  | obj (kvs : List (String × JValue))

/-- Python truthiness of a parsed JSON value (`bool(v)`). -/
def JValue.truthy : JValue → Bool
  | .null => false
  | .bool b => b
  | .num n => n != 0
  | .str s => s != ""
  | .arr xs => !xs.isEmpty
  | .obj kvs => !kvs.isEmpty

/-- Single-quote character (CPython's preferred string-repr quote). -/
def squo : Char := Char.ofNat 39

/-- Double-quote character. -/
def dquo : Char := Char.ofNat 34

/-- Backslash character. -/
def bslash : Char := Char.ofNat 92

/-- Escape one character the way CPython's `repr` does inside a string
literal quoted with `quote` (escapes for non-printables beyond the common
whitespace ones are elided; no verified property depends on them). -/
def pyEscapeChar (quote : Char) (c : Char) : String :=
  if c = bslash then String.mk [bslash, bslash]
  else if c = quote then String.mk [bslash, quote]
  else if c = Char.ofNat 10 then String.mk [bslash, Char.ofNat 110]
  else if c = Char.ofNat 13 then String.mk [bslash, Char.ofNat 114]
  else if c = Char.ofNat 9 then String.mk [bslash, Char.ofNat 116]
  else String.singleton c

/-- CPython `repr` escape of a whole string body. -/
def pyEscape (quote : Char) (s : String) : String :=
  String.join (s.data.map (pyEscapeChar quote))

/-- CPython `repr` of a string: single quotes, unless the string contains
a single quote and no double quote. -/
def pyReprString (s : String) : String :=
  if s.contains squo && !(s.contains dquo) then
    String.singleton dquo ++ pyEscape dquo s ++ String.singleton dquo
  else
    String.singleton squo ++ pyEscape squo s ++ String.singleton squo

mutual

/-- CPython `repr` of a parsed JSON value. -/
def pyRepr : JValue → String
  | .null => "None"
  | .bool true => "True"
  | .bool false => "False"
  | .num n => toString n
  | .str s => pyReprString s
  | .arr xs => "[" ++ pyReprList xs ++ "]"
  | .obj kvs => "\x7b" ++ pyReprObj kvs ++ "\x7d"

/-- CPython `repr` of the elements of a list, comma separated. -/
def pyReprList : List JValue → String
  | [] => ""
  | [v] => pyRepr v
  | v :: vs => pyRepr v ++ ", " ++ pyReprList vs

/-- CPython `repr` of the entries of a dict, comma separated. -/
def pyReprObj : List (String × JValue) → String
  | [] => ""
  | [(k, v)] => pyReprString k ++ ": " ++ pyRepr v
  | (k, v) :: kvs => pyReprString k ++ ": " ++ pyRepr v ++ ", " ++ pyReprObj kvs

end

/-- CPython `str` of a parsed JSON value — this is the `str(token_id)`
coercion used by both `mint_nft` and `submit_handler`. -/
def pyStr : JValue → String
  | .str s => s
  | v => pyRepr v

/-- CPython type name of a parsed JSON value (appears in the
`AttributeError` message when `.get` is called on a non-dict). -/
def pyTypeName : JValue → String
  | .null => "NoneType"
  | .bool _ => "bool"
  | .num _ => "int"
  | .str _ => "str"
  | .arr _ => "list"
  | .obj _ => "dict"

/-- `d.get(k)` on a parsed JSON object (parsed dicts have unique keys, so
first-match lookup is dict lookup). -/
def objGet : List (String × JValue) → String → Option JValue
  | [], _ => none
  | p :: ps, k => if p.1 == k then some p.2 else objGet ps k

/-- Truthiness of a `d.get(k)` result: an absent key yields `None`,
which is falsy. -/
def optTruthy : Option JValue → Bool
  | none => false
  | some v => v.truthy

/-- One row of `nft_store`:
`nft_store[token_id] = "owner": ..., "metadata": ..., "minted_at": ...`. -/
structure NFTRecord where
  owner : JValue
  metadata : JValue
  minted_at : String

/-- The module-level mutable state of `src/app.py`: the record table
`nft_store` and the counter `next_token_id`. -/
structure ServerState where
  nft_store : List (String × NFTRecord)
  next_token_id : Nat

/-- State at process start: empty table, counter at 1. -/
def initState : ServerState := ⟨[], 1⟩

/-- Dict lookup in `nft_store` (`nft_store[token_id]`; membership
`token_id in nft_store` is `(storeLookup ...).isSome`). -/
def storeLookup : List (String × NFTRecord) → String → Option NFTRecord
  | [], _ => none
  | p :: ps, k => if p.1 == k then some p.2 else storeLookup ps k

/-- The id-resolution step shared verbatim by `mint_nft` and
`submit_handler`:
`if not token_id: token_id = str(next_token_id); next_token_id += 1`
`else: token_id = str(token_id)`. -/
def resolveTokenId (st : ServerState) (token_id : Option JValue) :
    String × ServerState :=
  if optTruthy token_id then
    (pyStr (token_id.getD JValue.null), st)
  else
    (toString st.next_token_id,
     { st with next_token_id := st.next_token_id + 1 })

/-- The three return sites of `mint_nft`: 200 success, 400 duplicate id
(the Conflict-class error of the spec), 500 caught exception. -/
inductive MintResponse where
  | minted (token_id : String) (nft : NFTRecord)
  | duplicate (message : String)
  | internalError (message : String)

/-- HTTP status code of a mint response. -/
def MintResponse.status : MintResponse → Nat
  | .minted _ _ => 200
  | .duplicate _ => 400
  | .internalError _ => 500

/-- `POST /mint` (`mint_nft` in `src/app.py`). A non-dict JSON body makes
`data.get` raise `AttributeError`, caught by the handler's `except` and
reported as a 500. -/
def mint_nft (st : ServerState) (body : Except String JValue) (now : String) :
    MintResponse × ServerState :=
  match body with
  | .error msg => (.internalError msg, st)
  | .ok (JValue.obj kvs) =>
    let metadata := (objGet kvs "metadata").getD (JValue.obj [])
    let owner := (objGet kvs "owner").getD (JValue.str "unknown")
    let r := resolveTokenId st (objGet kvs "token_id")
    if (storeLookup r.2.nft_store r.1).isSome then
      (.duplicate ("Token ID " ++ r.1 ++ " already exists"), r.2)
    else
      let nft : NFTRecord := ⟨owner, metadata, now⟩
      (.minted r.1 nft,
       { r.2 with nft_store := r.2.nft_store ++ [(r.1, nft)] })
  | .ok v =>
    (.internalError (String.singleton squo ++ pyTypeName v ++ String.singleton squo
       ++ " object has no attribute " ++ String.singleton squo ++ "get"
       ++ String.singleton squo), st)

/-- Truthiness of `request.match_info.get("token_id")`. -/
def strOptTruthy : Option String → Bool
  | none => false
  | some s => s != ""

/-- The three return sites of `get_nft`: 200 found, 400 empty/missing id,
404 unknown id. -/
inductive GetResponse where
  | found (token_id : String) (nft : NFTRecord)
  | badRequest (message : String)
  | notFound (message : String)

/-- HTTP status code of a get response. -/
def GetResponse.status : GetResponse → Nat
  | .found _ _ => 200
  | .badRequest _ => 400
  | .notFound _ => 404

/-- `GET /nft/<token_id>` (`get_nft`). Reads the table, never writes it. -/
def get_nft (st : ServerState) (token_id : Option String) : GetResponse :=
  if !(strOptTruthy token_id) then
    .badRequest "Token ID required"
  else
    let tid := token_id.getD ""
    match storeLookup st.nft_store tid with
    | none => .notFound ("NFT " ++ tid ++ " not found")
    | some nft => .found tid nft

/-- Response of `list_nfts`: the flattened records and their count. -/
structure ListResponse where
  count : Nat
  nfts : List (String × NFTRecord)

/-- `GET /nfts` (`list_nfts`): every stored record flattened with its id
alongside its fields, plus the total count. -/
def list_nfts (st : ServerState) : ListResponse :=
  let nfts := st.nft_store
  ⟨nfts.length, nfts⟩

/-- Response of `health`. -/
structure HealthResponse where
  status : String
  timestamp : String
  service : String
  version : String
  nfts_minted : Nat

/-- `GET /health` (`health`). -/
def health (st : ServerState) (now : String) : HealthResponse :=
  ⟨"OK", now, "nft-lane", "1.0.0", st.nft_store.length⟩

/-- A `POST /submit` request: the raw payload's byte length, the outcome
of `data.decode("utf-8")` followed by `json.loads` (`none` when either
step fails), and the four optional `X-` headers. -/
structure SubmitRequest where
  bytes_len : Nat
  parsed : Option JValue
  x_forwarded_from : Option String := none
  x_content_type : Option String := none
  x_user : Option String := none
  x_timestamp : Option String := none

/-- `user or json_data.get("owner", "unknown")`: the header wins only when
it is truthy, i.e. present and non-empty (Python `or` tests truthiness,
not presence). -/
def headerOr (user : Option String) (fallback : JValue) : JValue :=
  match user with
  | some u => if u != "" then JValue.str u else fallback
  | none => fallback

/-- `"token_id" in json_data or "metadata" in json_data`. -/
def isMintShaped (kvs : List (String × JValue)) : Bool :=
  (objGet kvs "token_id").isSome || (objGet kvs "metadata").isSome

/-- The single non-exceptional return site of `submit_handler`:
a 200 acknowledgement carrying `len(data)`. -/
inductive SubmitResponse where
  | ok (bytes_received : Nat)

/-- `POST /submit` (`submit_handler`). Decode/parse failures and non-mint
payloads fall through to the same 200 acknowledgement; a colliding id is
logged and skipped silently, never surfaced to the caller. -/
def submit_handler (st : ServerState) (req : SubmitRequest) (now : String) :
    SubmitResponse × ServerState :=
  let st' :=
    match req.parsed with
    | some (JValue.obj kvs) =>
      if isMintShaped kvs then
        let metadata := (objGet kvs "metadata").getD (JValue.obj [])
        let owner := headerOr req.x_user
          ((objGet kvs "owner").getD (JValue.str "unknown"))
        let r := resolveTokenId st (objGet kvs "token_id")
        if (storeLookup r.2.nft_store r.1).isNone then
          { r.2 with nft_store := r.2.nft_store ++ [(r.1, ⟨owner, metadata, now⟩)] }
        else
          r.2
      else st
    | _ => st
  (.ok req.bytes_len, st')

/-- One incoming request, carrying the server-captured timestamp where
the handler samples one. -/
inductive Op where
  | mintOp (body : Except String JValue) (now : String)
  | submitOp (req : SubmitRequest) (now : String)
  | getOp (token_id : Option String)
  | listOp
  | healthOp (now : String)

/-- State transition of one request (the read-only handlers leave the
state unchanged). -/
def stepState (st : ServerState) : Op → ServerState
  | .mintOp body now => (mint_nft st body now).2
  | .submitOp req now => (submit_handler st req now).2
  | .getOp _ => st
  | .listOp => st
  | .healthOp _ => st

/-- Run a sequence of requests from a state. -/
def run (st : ServerState) : List Op → ServerState
  | [] => st
  | op :: ops => run (stepState st op) ops

/-- Does this request take the auto-generation branch
(`if not token_id: token_id = str(next_token_id); next_token_id += 1`)? -/
def opAutogenerates : Op → Bool
  | .mintOp (.ok (JValue.obj kvs)) _ => !(optTruthy (objGet kvs "token_id"))
  | .submitOp req _ =>
    match req.parsed with
    | some (JValue.obj kvs) =>
      isMintShaped kvs && !(optTruthy (objGet kvs "token_id"))
    | _ => false
  | _ => false

/-- The id auto-generated by this request at state `st`, when it takes
the auto-generation branch. -/
def stepAuto (st : ServerState) (op : Op) : Option String :=
  if opAutogenerates op then some (toString st.next_token_id) else none

/-- All auto-generated ids along a run, in order of generation. -/
def autoIds (st : ServerState) : List Op → List String
  | [] => []
  | op :: ops => (stepAuto st op).toList ++ autoIds (stepState st op) ops

/-- Does this request insert a record (a successful mint, or a submit
whose mint-shaped payload resolves to a fresh id)? -/
def opCreatesRecord (st : ServerState) : Op → Bool
  | .mintOp (.ok (JValue.obj kvs)) _ =>
    (storeLookup st.nft_store (resolveTokenId st (objGet kvs "token_id")).1).isNone
  | .submitOp req _ =>
    match req.parsed with
    | some (JValue.obj kvs) =>
      isMintShaped kvs &&
        (storeLookup st.nft_store (resolveTokenId st (objGet kvs "token_id")).1).isNone
    | _ => false
  | _ => false

/-- Number of records created along a run. -/
def countCreations (st : ServerState) : List Op → Nat
  | [] => 0
  | op :: ops =>
    (if opCreatesRecord st op then 1 else 0) + countCreations (stepState st op) ops

/-- Number of auto-generations along a run. -/
def countAutos (st : ServerState) : List Op → Nat
  | [] => 0
  | op :: ops =>
    (if opAutogenerates op then 1 else 0) + countAutos (stepState st op) ops

/-- Numeric value of a list of decimal digit characters, most significant
first — the inverse of the digit production in `Nat.toDigitsCore`. -/
def charsVal (l : List Char) : Nat :=
  l.foldl (fun acc c => 10 * acc + (c.toNat - 48)) 0

theorem storeLookup_append_left (l l2 : List (String × NFTRecord)) (k : String)
    (nft : NFTRecord) (h : storeLookup l k = some nft) :
    storeLookup (l ++ l2) k = some nft := by
  induction l with
  | nil => simp [storeLookup] at h
  | cons p ps ih =>
    by_cases hpk : (p.1 == k) = true
    · simp only [storeLookup, hpk, if_true, List.cons_append] at h ⊢
      exact h
    · simp only [storeLookup, hpk, if_false, List.cons_append,
        Bool.false_eq_true] at h ⊢
      exact ih h

theorem storeLookup_append_self (l : List (String × NFTRecord)) (k : String)
    (h : storeLookup l k = none) (nft : NFTRecord) :
    storeLookup (l ++ [(k, nft)]) k = some nft := by
  induction l with
  | nil => simp [storeLookup]
  | cons p ps ih =>
    by_cases hpk : (p.1 == k) = true
    · simp only [storeLookup, hpk, if_true] at h
      exact absurd h (by simp)
    · simp only [storeLookup, hpk, if_false, List.cons_append,
        Bool.false_eq_true] at h ⊢
      exact ih h

theorem storeLookup_none_iff (l : List (String × NFTRecord)) (k : String) :
    storeLookup l k = none ↔ k ∉ l.map Prod.fst := by
  induction l with
  | nil => simp [storeLookup]
  | cons p ps ih =>
    simp only [storeLookup, List.map_cons, List.mem_cons]
    by_cases hpk : p.1 = k
    · subst hpk; simp
    · have hpk2 : (p.1 == k) = false := by simp [hpk]
      have hk : ¬(k = p.1) := fun h2 => hpk h2.symm
      simp [hpk2, ih, hk]

theorem resolveTokenId_store (st : ServerState) (t : Option JValue) :
    (resolveTokenId st t).2.nft_store = st.nft_store := by
  unfold resolveTokenId; split <;> rfl

theorem resolveTokenId_of_truthy (st : ServerState) (t : Option JValue)
    (h : optTruthy t = true) :
    resolveTokenId st t = (pyStr (t.getD JValue.null), st) := by
  simp [resolveTokenId, h]

theorem resolveTokenId_of_falsy (st : ServerState) (t : Option JValue)
    (h : optTruthy t = false) :
    resolveTokenId st t
      = (toString st.next_token_id,
         { st with next_token_id := st.next_token_id + 1 }) := by
  simp [resolveTokenId, h]

theorem resolveTokenId_counter (st : ServerState) (t : Option JValue) :
    (resolveTokenId st t).2.next_token_id
      = st.next_token_id + (if optTruthy t then 0 else 1) := by
  unfold resolveTokenId
  split <;> simp

theorem toDigitsCore_shift (b : Nat) (f : Nat) : ∀ (n : Nat) (l : List Char),
    Nat.toDigitsCore b f n l = Nat.toDigitsCore b f n [] ++ l := by
  induction f with
  | zero => intro n l; simp [Nat.toDigitsCore]
  | succ f ih =>
    intro n l
    simp only [Nat.toDigitsCore]
    by_cases h : n / b = 0
    · simp [h]
    · simp only [if_neg h]
      rw [ih (n / b) (Nat.digitChar (n % b) :: l),
          ih (n / b) [Nat.digitChar (n % b)]]
      simp

theorem digitChar_toNat (d : Nat) (h : d < 10) :
    (Nat.digitChar d).toNat = 48 + d := by
  interval_cases d <;> rfl

theorem charsVal_append_singleton (l : List Char) (c : Char) :
    charsVal (l ++ [c]) = 10 * charsVal l + (c.toNat - 48) := by
  simp [charsVal, List.foldl_append]

theorem toDigitsCore_val (f : Nat) : ∀ n : Nat, n < f →
    charsVal (Nat.toDigitsCore 10 f n []) = n := by
  induction f with
  | zero => intro n h; omega
  | succ f ih =>
    intro n h
    simp only [Nat.toDigitsCore]
    by_cases h0 : n / 10 = 0
    · rw [if_pos h0]
      simp [charsVal, digitChar_toNat (n % 10) (by omega)]
      omega
    · rw [if_neg h0]
      rw [toDigitsCore_shift, charsVal_append_singleton,
          ih (n / 10) (by omega), digitChar_toNat (n % 10) (by omega)]
      omega

theorem charsVal_toString (n : Nat) : charsVal (toString n).data = n := by
  have h : toString n = String.mk (Nat.toDigitsCore 10 (n + 1) n []) := rfl
  rw [h]
  exact toDigitsCore_val (n + 1) n (Nat.lt_succ_self n)

theorem natToString_injective : Function.Injective (fun n : Nat => toString n) := by
  intro m n h
  simp only at h
  have hm := charsVal_toString m
  rw [h, charsVal_toString n] at hm
  exact hm.symm


theorem next_token_id_step (st : ServerState) (op : Op) :
    (stepState st op).next_token_id
      = st.next_token_id + (if opAutogenerates op then 1 else 0) := by
  cases op with
  | mintOp body now =>
    cases body with
    | error msg => simp [stepState, mint_nft, opAutogenerates]
    | ok v =>
      cases v with
      | null => simp [stepState, mint_nft, opAutogenerates]
      | bool b => simp [stepState, mint_nft, opAutogenerates]
      | num n => simp [stepState, mint_nft, opAutogenerates]
      | str s => simp [stepState, mint_nft, opAutogenerates]
      | arr xs => simp [stepState, mint_nft, opAutogenerates]
      | obj kvs =>
        simp only [stepState, mint_nft, opAutogenerates]
        by_cases ht : optTruthy (objGet kvs "token_id") = true
        · rw [resolveTokenId_of_truthy _ _ ht]
          split <;> simp [ht]
        · have hf : optTruthy (objGet kvs "token_id") = false := by
            simpa using ht
          rw [resolveTokenId_of_falsy _ _ hf]
          split <;> simp [hf]
  | submitOp req now =>
    cases hp : req.parsed with
    | none => simp [stepState, submit_handler, opAutogenerates, hp]
    | some v =>
      cases v with
      | null => simp [stepState, submit_handler, opAutogenerates, hp]
      | bool b => simp [stepState, submit_handler, opAutogenerates, hp]
      | num n => simp [stepState, submit_handler, opAutogenerates, hp]
      | str s => simp [stepState, submit_handler, opAutogenerates, hp]
      | arr xs => simp [stepState, submit_handler, opAutogenerates, hp]
      | obj kvs =>
        simp only [stepState, submit_handler, opAutogenerates, hp]
        by_cases hs : isMintShaped kvs = true
        · simp only [hs, if_true, Bool.true_and]
          by_cases ht : optTruthy (objGet kvs "token_id") = true
          · rw [resolveTokenId_of_truthy _ _ ht]
            split <;> simp [ht]
          · have hf : optTruthy (objGet kvs "token_id") = false := by
              simpa using ht
            rw [resolveTokenId_of_falsy _ _ hf]
            split <;> simp [hf]
        · have hs2 : isMintShaped kvs = false := by simpa using hs
          simp [hs2]
  | getOp tid => simp [stepState, opAutogenerates]
  | listOp => simp [stepState, opAutogenerates]
  | healthOp now => simp [stepState, opAutogenerates]

theorem nft_store_step_cases (st : ServerState) (op : Op) :
    ((stepState st op).nft_store = st.nft_store ∧ opCreatesRecord st op = false)
    ∨ (∃ k nft, storeLookup st.nft_store k = none
         ∧ (stepState st op).nft_store = st.nft_store ++ [(k, nft)]
         ∧ opCreatesRecord st op = true) := by
  cases op with
  | mintOp body now =>
    cases body with
    | error msg => left; simp [stepState, mint_nft, opCreatesRecord]
    | ok v =>
      cases v with
      | null => left; simp [stepState, mint_nft, opCreatesRecord]
      | bool b => left; simp [stepState, mint_nft, opCreatesRecord]
      | num n => left; simp [stepState, mint_nft, opCreatesRecord]
      | str s => left; simp [stepState, mint_nft, opCreatesRecord]
      | arr xs => left; simp [stepState, mint_nft, opCreatesRecord]
      | obj kvs =>
        simp only [stepState, mint_nft, opCreatesRecord]
        have hstore := resolveTokenId_store st (objGet kvs "token_id")
        cases hl : storeLookup st.nft_store
            (resolveTokenId st (objGet kvs "token_id")).1 with
        | some nft0 =>
          left
          rw [hstore, hl]
          simp [hstore]
        | none =>
          right
          refine ⟨(resolveTokenId st (objGet kvs "token_id")).1,
            ⟨(objGet kvs "owner").getD (JValue.str "unknown"),
             (objGet kvs "metadata").getD (JValue.obj []), now⟩, hl, ?_, ?_⟩
          · rw [hstore, hl]
            simp [hstore]
          · rfl
  | submitOp req now =>
    cases hp : req.parsed with
    | none => left; simp [stepState, submit_handler, opCreatesRecord, hp]
    | some v =>
      cases v with
      | null => left; simp [stepState, submit_handler, opCreatesRecord, hp]
      | bool b => left; simp [stepState, submit_handler, opCreatesRecord, hp]
      | num n => left; simp [stepState, submit_handler, opCreatesRecord, hp]
      | str s => left; simp [stepState, submit_handler, opCreatesRecord, hp]
      | arr xs => left; simp [stepState, submit_handler, opCreatesRecord, hp]
      | obj kvs =>
        by_cases hs : isMintShaped kvs = true
        · simp only [stepState, submit_handler, opCreatesRecord, hp, hs,
            if_true, Bool.true_and]
          have hstore := resolveTokenId_store st (objGet kvs "token_id")
          cases hl : storeLookup st.nft_store
              (resolveTokenId st (objGet kvs "token_id")).1 with
          | some nft0 =>
            left
            rw [hstore, hl]
            simp [hstore]
          | none =>
            right
            refine ⟨(resolveTokenId st (objGet kvs "token_id")).1,
              ⟨headerOr req.x_user ((objGet kvs "owner").getD (JValue.str "unknown")),
               (objGet kvs "metadata").getD (JValue.obj []), now⟩, hl, ?_, ?_⟩
            · rw [hstore, hl]
              simp [hstore]
            · rfl
        · have hs2 : isMintShaped kvs = false := by simpa using hs
          left
          simp [stepState, submit_handler, opCreatesRecord, hp, hs2]
  | getOp tid => left; simp [stepState, opCreatesRecord]
  | listOp => left; simp [stepState, opCreatesRecord]
  | healthOp now => left; simp [stepState, opCreatesRecord]

theorem nft_store_length_step (st : ServerState) (op : Op) :
    (stepState st op).nft_store.length
      = st.nft_store.length + (if opCreatesRecord st op then 1 else 0) := by
  rcases nft_store_step_cases st op with ⟨h1, h2⟩ | ⟨k, nft, hk, h1, h2⟩ <;>
    simp [h1, h2]

theorem storeLookup_step (st : ServerState) (op : Op) (k : String)
    (nft : NFTRecord) (h : storeLookup st.nft_store k = some nft) :
    storeLookup (stepState st op).nft_store k = some nft := by
  rcases nft_store_step_cases st op with ⟨h1, _⟩ | ⟨k2, n2, _, h1, _⟩
  · rw [h1]; exact h
  · rw [h1]; exact storeLookup_append_left _ _ _ _ h

theorem storeLookup_run (ops : List Op) : ∀ (st : ServerState) (k : String)
    (nft : NFTRecord), storeLookup st.nft_store k = some nft →
    storeLookup (run st ops).nft_store k = some nft := by
  induction ops with
  | nil => intro st k nft h; exact h
  | cons op ops ih =>
    intro st k nft h
    exact ih (stepState st op) k nft (storeLookup_step st op k nft h)

theorem keys_nodup_step (st : ServerState) (op : Op)
    (h : (st.nft_store.map Prod.fst).Nodup) :
    ((stepState st op).nft_store.map Prod.fst).Nodup := by
  rcases nft_store_step_cases st op with ⟨h1, _⟩ | ⟨k, nft, hk, h1, _⟩
  · rw [h1]; exact h
  · rw [h1, List.map_append]
    have hk2 : k ∉ st.nft_store.map Prod.fst := (storeLookup_none_iff _ _).1 hk
    simp [List.nodup_append, h, hk2]

theorem keys_nodup_run (ops : List Op) : ∀ st : ServerState,
    (st.nft_store.map Prod.fst).Nodup →
    ((run st ops).nft_store.map Prod.fst).Nodup := by
  induction ops with
  | nil => intro st h; exact h
  | cons op ops ih => intro st h; exact ih (stepState st op) (keys_nodup_step st op h)

theorem run_length (ops : List Op) : ∀ st : ServerState,
    (run st ops).nft_store.length = st.nft_store.length + countCreations st ops := by
  induction ops with
  | nil => intro st; simp [run, countCreations]
  | cons op ops ih =>
    intro st
    have h1 : run st (op :: ops) = run (stepState st op) ops := rfl
    rw [h1, ih (stepState st op), nft_store_length_step]
    simp [countCreations]
    omega

theorem autoIds_spec (ops : List Op) : ∀ st : ServerState,
    autoIds st ops
      = (List.range (countAutos st ops)).map
          (fun i => toString (st.next_token_id + i)) := by
  induction ops with
  | nil => intro st; simp [autoIds, countAutos]
  | cons op ops ih =>
    intro st
    by_cases h : opAutogenerates op = true
    · have hstep : (stepState st op).next_token_id = st.next_token_id + 1 := by
        rw [next_token_id_step]; simp [h]
      have hlhs : autoIds st (op :: ops)
          = toString st.next_token_id :: autoIds (stepState st op) ops := by
        simp [autoIds, stepAuto, h]
      have hcnt : countAutos st (op :: ops)
          = countAutos (stepState st op) ops + 1 := by
        simp [countAutos, h]
        omega
      rw [hlhs, ih (stepState st op), hstep, hcnt, List.range_succ_eq_map]
      simp only [List.map_cons, List.map_map, Function.comp]
      congr 1
      apply List.map_congr_left
      intro a _
      simp only [Function.comp_apply]
      congr 1
      omega
    · have h0 : opAutogenerates op = false := by simpa using h
      have hstep : (stepState st op).next_token_id = st.next_token_id := by
        rw [next_token_id_step]; simp [h0]
      have hlhs : autoIds st (op :: ops) = autoIds (stepState st op) ops := by
        simp [autoIds, stepAuto, h0]
      have hcnt : countAutos st (op :: ops)
          = countAutos (stepState st op) ops := by
        simp [countAutos, h0]
      rw [hlhs, ih (stepState st op), hstep, hcnt]

theorem autoIds_length (ops : List Op) (st : ServerState) :
    (autoIds st ops).length = countAutos st ops := by
  rw [autoIds_spec]
  simp

theorem submit_state_after (st : ServerState) (req : SubmitRequest)
    (now : String) (kvs : List (String × JValue))
    (hp : req.parsed = some (JValue.obj kvs)) (hs : isMintShaped kvs = true) :
    (submit_handler st req now).2
      = (if (storeLookup (resolveTokenId st (objGet kvs "token_id")).2.nft_store
              (resolveTokenId st (objGet kvs "token_id")).1).isNone
         then { (resolveTokenId st (objGet kvs "token_id")).2 with
                nft_store :=
                  (resolveTokenId st (objGet kvs "token_id")).2.nft_store
                  ++ [((resolveTokenId st (objGet kvs "token_id")).1,
                       ⟨headerOr req.x_user
                          ((objGet kvs "owner").getD (JValue.str "unknown")),
                        (objGet kvs "metadata").getD (JValue.obj []), now⟩)] }
         else (resolveTokenId st (objGet kvs "token_id")).2) := by
  simp [submit_handler, hp, hs]

/-- C6: a submit request whose payload fails UTF-8 decoding or JSON
parsing is still acknowledged with the success response carrying the
payload's byte length, and no record is created: table and counter are
unchanged. -/
theorem submit_unparsable_ack (st : ServerState) (req : SubmitRequest)
    (now : String) (h : req.parsed = none) :
    submit_handler st req now = (SubmitResponse.ok req.bytes_len, st) := by
  simp [submit_handler, h]

/-- C6 witness: a 5-byte non-UTF-8 payload at the initial state. -/
theorem submit_unparsable_ack_witness :
    submit_handler initState ⟨5, none, none, none, none, none⟩ "t0"
      = (SubmitResponse.ok 5, initState) :=
  submit_unparsable_ack initState ⟨5, none, none, none, none, none⟩ "t0" rfl

/-- C9: a submit payload that parses as JSON but is not a mapping, or is
a mapping with neither a token_id nor a metadata key, creates no record
and leaves the state unchanged, while the response is still the success
acknowledgement with the payload's byte count. -/
theorem submit_non_mint_ack (st : ServerState) (req : SubmitRequest)
    (now : String) (v : JValue) (hp : req.parsed = some v)
    (hnm : match v with
           | JValue.obj kvs => isMintShaped kvs = false
           | _ => True) :
    submit_handler st req now = (SubmitResponse.ok req.bytes_len, st) := by
  cases v with
  | null => simp [submit_handler, hp]
  | bool b => simp [submit_handler, hp]
  | num n => simp [submit_handler, hp]
  | str s => simp [submit_handler, hp]
  | arr xs => simp [submit_handler, hp]
  | obj kvs => simp [submit_handler, hp, hnm]

/-- C9 witness: a JSON list payload and a JSON mapping without the two
mint keys, both at the initial state. -/
theorem submit_non_mint_ack_witness :
    submit_handler initState ⟨4, some (JValue.arr []), none, none, none, none⟩ "t0"
      = (SubmitResponse.ok 4, initState)
    ∧ submit_handler initState
        ⟨6, some (JValue.obj [("owner", JValue.str "z")]), none, none, none, none⟩ "t0"
      = (SubmitResponse.ok 6, initState) :=
  ⟨submit_non_mint_ack initState _ "t0" (JValue.arr []) rfl trivial,
   submit_non_mint_ack initState _ "t0" (JValue.obj [("owner", JValue.str "z")]) rfl rfl⟩

/-- C10: a submit request whose X-User header is the empty string behaves
exactly as if the header were absent — owner precedence falls back to the
body's owner field or "unknown" — because Python `or` tests truthiness,
not presence. -/
theorem submit_empty_user_header (st : ServerState) (req : SubmitRequest)
    (now : String) (h : req.x_user = some "") :
    submit_handler st req now
      = submit_handler st { req with x_user := none } now := by
  simp [submit_handler, h, headerOr]

/-- C10 witness: an empty X-User header with a body owner "bob" gives the
same outcome as no header at all. -/
theorem submit_empty_user_header_witness :
    submit_handler initState
        ⟨9, some (JValue.obj [("token_id", JValue.str "q"),
                              ("owner", JValue.str "bob")]),
         none, none, some "", none⟩ "t0"
      = submit_handler initState
        ⟨9, some (JValue.obj [("token_id", JValue.str "q"),
                              ("owner", JValue.str "bob")]),
         none, none, none, none⟩ "t0" :=
  submit_empty_user_header initState _ "t0" rfl

/-- C5: get-by-id returns the Bad-Request error for an empty or missing
id, the Not-Found error naming the id when it is absent from the table,
and otherwise the stored record verbatim with its id; the handler never
changes the state. -/
theorem get_nft_spec :
    (∀ st : ServerState,
       get_nft st none = GetResponse.badRequest "Token ID required"
       ∧ get_nft st (some "") = GetResponse.badRequest "Token ID required")
    ∧ (∀ (st : ServerState) (s : String), s ≠ "" →
         storeLookup st.nft_store s = none →
         get_nft st (some s) = GetResponse.notFound ("NFT " ++ s ++ " not found"))
    ∧ (∀ (st : ServerState) (s : String) (nft : NFTRecord), s ≠ "" →
         storeLookup st.nft_store s = some nft →
         get_nft st (some s) = GetResponse.found s nft)
    ∧ (∀ (st : ServerState) (tid : Option String),
         stepState st (Op.getOp tid) = st) := by
  refine ⟨fun st => ⟨rfl, rfl⟩, fun st s hs hl => ?_, fun st s nft hs hl => ?_,
    fun st tid => rfl⟩
  · simp [get_nft, strOptTruthy, hs, hl]
  · simp [get_nft, strOptTruthy, hs, hl]

/-- C5 witness: a missing id, an unknown id, and a freshly minted id. -/
theorem get_nft_spec_witness :
    get_nft initState none = GetResponse.badRequest "Token ID required"
    ∧ get_nft initState (some "x") = GetResponse.notFound "NFT x not found"
    ∧ get_nft (mint_nft initState (Except.ok (JValue.obj [])) "t0").2 (some "1")
        = GetResponse.found "1" ⟨JValue.str "unknown", JValue.obj [], "t0"⟩ :=
  ⟨(get_nft_spec.1 initState).1,
   get_nft_spec.2.1 initState "x" (by decide) rfl,
   get_nft_spec.2.2.1 (mint_nft initState (Except.ok (JValue.obj [])) "t0").2
     "1" ⟨JValue.str "unknown", JValue.obj [], "t0"⟩ (by decide) rfl⟩

/-- C8: records are immutable for the life of the process: a record
present in the table keeps exactly its owner, metadata and creation
timestamp, and is never deleted, across any subsequent sequence of mint,
submit, get, list and health requests. -/
theorem record_immutable (st : ServerState) (ops : List Op) (id : String)
    (nft : NFTRecord) (h : storeLookup st.nft_store id = some nft) :
    storeLookup (run st ops).nft_store id = some nft :=
  storeLookup_run ops st id nft h

/-- C8 witness: the record minted first survives a later mint, a submit
that targets its id, a get, a list and a health request, unchanged. -/
theorem record_immutable_witness :
    storeLookup (run (mint_nft initState (Except.ok (JValue.obj [])) "t0").2
        [Op.mintOp (Except.ok (JValue.obj [])) "t1",
         Op.submitOp ⟨2, some (JValue.obj [("token_id", JValue.str "1"),
           ("metadata", JValue.obj [])]), none, none, none, none⟩ "t2",
         Op.getOp (some "1"), Op.listOp, Op.healthOp "t3"]).nft_store "1"
      = some ⟨JValue.str "unknown", JValue.obj [], "t0"⟩ :=
  record_immutable (mint_nft initState (Except.ok (JValue.obj [])) "t0").2
    [Op.mintOp (Except.ok (JValue.obj [])) "t1",
     Op.submitOp ⟨2, some (JValue.obj [("token_id", JValue.str "1"),
       ("metadata", JValue.obj [])]), none, none, none, none⟩ "t2",
     Op.getOp (some "1"), Op.listOp, Op.healthOp "t3"]
    "1" ⟨JValue.str "unknown", JValue.obj [], "t0"⟩ rfl

/-- C7: after any sequence of requests from process start, list returns
every stored record flattened with its id, its count equals the table
size, the table size equals the number of successful (non-duplicate)
record creations — whose ids are pairwise distinct — and health reports
the same live table size. -/
theorem list_health_counts (ops : List Op) (now : String) :
    (list_nfts (run initState ops)).nfts = (run initState ops).nft_store
    ∧ (list_nfts (run initState ops)).count = (run initState ops).nft_store.length
    ∧ (health (run initState ops) now).nfts_minted
        = (run initState ops).nft_store.length
    ∧ (run initState ops).nft_store.length = countCreations initState ops
    ∧ ((run initState ops).nft_store.map Prod.fst).Nodup := by
  refine ⟨rfl, rfl, rfl, ?_, ?_⟩
  · have h := run_length ops initState
    simpa [initState] using h
  · exact keys_nodup_run ops initState (by simp [initState])

/-- C2 counterexample: the claim "the id counter is unaffected by this
failure path" fails when the colliding id was auto-generated. After an
explicit mint of id "1" the counter is still 1; a mint without token_id
then auto-generates "1", fails with the duplicate error, and the counter
has moved from 1 to 2. -/
theorem mint_duplicate_counter_counterexample :
    (mint_nft (mint_nft initState
        (Except.ok (JValue.obj [("token_id", JValue.str "1")])) "t0").2
        (Except.ok (JValue.obj [])) "t1").1
      = MintResponse.duplicate "Token ID 1 already exists"
    ∧ (mint_nft initState
        (Except.ok (JValue.obj [("token_id", JValue.str "1")])) "t0").2.next_token_id
      = 1
    ∧ (mint_nft (mint_nft initState
        (Except.ok (JValue.obj [("token_id", JValue.str "1")])) "t0").2
        (Except.ok (JValue.obj [])) "t1").2.next_token_id
      = 2 :=
  ⟨rfl, rfl, rfl⟩

/-- C2 amended: a mint whose resolved id is already in the table fails
with the duplicate (Conflict-class, HTTP 400) error naming the colliding
id, the table is not mutated, and the conflict branch itself leaves the
counter as the id-resolution step left it: unchanged for an explicit
token_id, incremented by exactly the one auto-generation step otherwise. -/
theorem mint_duplicate_spec (st : ServerState) (kvs : List (String × JValue))
    (now : String)
    (h : (storeLookup st.nft_store
           (resolveTokenId st (objGet kvs "token_id")).1).isSome = true) :
    (mint_nft st (Except.ok (JValue.obj kvs)) now).1
      = MintResponse.duplicate
          ("Token ID " ++ (resolveTokenId st (objGet kvs "token_id")).1
            ++ " already exists")
    ∧ ((mint_nft st (Except.ok (JValue.obj kvs)) now).1).status = 400
    ∧ (mint_nft st (Except.ok (JValue.obj kvs)) now).2.nft_store = st.nft_store
    ∧ (mint_nft st (Except.ok (JValue.obj kvs)) now).2.next_token_id
        = st.next_token_id
          + (if optTruthy (objGet kvs "token_id") then 0 else 1) := by
  have hstore := resolveTokenId_store st (objGet kvs "token_id")
  have h2 : (storeLookup (resolveTokenId st (objGet kvs "token_id")).2.nft_store
      (resolveTokenId st (objGet kvs "token_id")).1).isSome = true := by
    rw [hstore]; exact h
  obtain ⟨nft0, hnft⟩ := Option.isSome_iff_exists.1 h2
  simp only [mint_nft]
  rw [hnft]
  refine ⟨by simp, by simp [MintResponse.status], by simp [hstore],
    by simp [resolveTokenId_counter]⟩

/-- C2 witness: an explicit re-mint of the already existing id "7". -/
theorem mint_duplicate_spec_witness :
    (mint_nft (mint_nft initState
        (Except.ok (JValue.obj [("token_id", JValue.str "7")])) "t0").2
        (Except.ok (JValue.obj [("token_id", JValue.str "7")])) "t1").1
      = MintResponse.duplicate "Token ID 7 already exists"
    ∧ (mint_nft (mint_nft initState
        (Except.ok (JValue.obj [("token_id", JValue.str "7")])) "t0").2
        (Except.ok (JValue.obj [("token_id", JValue.str "7")])) "t1").2.nft_store
      = (mint_nft initState
          (Except.ok (JValue.obj [("token_id", JValue.str "7")])) "t0").2.nft_store :=
  ⟨(mint_duplicate_spec (mint_nft initState
      (Except.ok (JValue.obj [("token_id", JValue.str "7")])) "t0").2
      [("token_id", JValue.str "7")] "t1" rfl).1,
   (mint_duplicate_spec (mint_nft initState
      (Except.ok (JValue.obj [("token_id", JValue.str "7")])) "t0").2
      [("token_id", JValue.str "7")] "t1" rfl).2.2.1⟩

/-- C3: a submit request whose mint-shaped JSON payload resolves to an id
already in the table is silently skipped: the response is the success
acknowledgement, not a Conflict error, and the table — in particular the
existing record for that id — is not mutated. Moreover, submitting the
same explicit-id mint-shaped body twice acknowledges both requests and
the second leaves the state of the first completely unchanged, so exactly
one record exists for that id. -/
theorem submit_duplicate_silent_skip :
    (∀ (st : ServerState) (req : SubmitRequest) (now : String)
       (kvs : List (String × JValue)),
       req.parsed = some (JValue.obj kvs) →
       isMintShaped kvs = true →
       (storeLookup st.nft_store
         (resolveTokenId st (objGet kvs "token_id")).1).isSome = true →
       (submit_handler st req now).1 = SubmitResponse.ok req.bytes_len
         ∧ (submit_handler st req now).2.nft_store = st.nft_store)
    ∧ (∀ (st : ServerState) (req : SubmitRequest) (now now2 : String)
         (kvs : List (String × JValue)) (v : JValue),
         req.parsed = some (JValue.obj kvs) →
         objGet kvs "token_id" = some v →
         v.truthy = true →
         submit_handler (submit_handler st req now).2 req now2
           = (SubmitResponse.ok req.bytes_len, (submit_handler st req now).2)) := by
  constructor
  · intro st req now kvs hp hs hl
    refine ⟨rfl, ?_⟩
    have hstore := resolveTokenId_store st (objGet kvs "token_id")
    have h2 : (storeLookup (resolveTokenId st (objGet kvs "token_id")).2.nft_store
        (resolveTokenId st (objGet kvs "token_id")).1).isSome = true := by
      rw [hstore]; exact hl
    obtain ⟨nft0, hnft⟩ := Option.isSome_iff_exists.1 h2
    rw [submit_state_after st req now kvs hp hs, hnft]
    simp [hstore]
  · intro st req now now2 kvs v hp ht hv
    have htr : optTruthy (objGet kvs "token_id") = true := by
      rw [ht]; simpa [optTruthy] using hv
    have hs : isMintShaped kvs = true := by simp [isMintShaped, ht]
    have hr1 := resolveTokenId_of_truthy st (objGet kvs "token_id") htr
    have hr2 := resolveTokenId_of_truthy (submit_handler st req now).2
      (objGet kvs "token_id") htr
    have h1 := submit_state_after st req now kvs hp hs
    rw [hr1] at h1
    have h2 := submit_state_after (submit_handler st req now).2 req now2 kvs hp hs
    rw [hr2] at h2
    have hlook : (storeLookup (submit_handler st req now).2.nft_store
        (pyStr ((objGet kvs "token_id").getD JValue.null))).isNone = false := by
      rw [h1]
      cases hl : storeLookup st.nft_store
          (pyStr ((objGet kvs "token_id").getD JValue.null)) with
      | none =>
        simp only [hl, Option.isNone_none, if_true]
        simp [storeLookup_append_self _ _ hl]
      | some nft0 =>
        simp [hl]
    have hsnd : (submit_handler (submit_handler st req now).2 req now2).2
        = (submit_handler st req now).2 := by
      rw [h2, hlook]
      simp
    exact Prod.ext rfl hsnd

/-- C3 witness: submitting the spec's example body (explicit id "7") a
second time is acknowledged and changes nothing; the skip branch leaves
the table untouched. -/
theorem submit_duplicate_silent_skip_witness :
    ((submit_handler (submit_handler initState
        ⟨34, some (JValue.obj [("token_id", JValue.str "7"),
          ("metadata", JValue.obj [("x", JValue.num 1)])]),
         none, none, none, none⟩ "t0").2
        ⟨34, some (JValue.obj [("token_id", JValue.str "7"),
          ("metadata", JValue.obj [("x", JValue.num 1)])]),
         none, none, none, none⟩ "t1").1 = SubmitResponse.ok 34
      ∧ (submit_handler (submit_handler initState
          ⟨34, some (JValue.obj [("token_id", JValue.str "7"),
            ("metadata", JValue.obj [("x", JValue.num 1)])]),
           none, none, none, none⟩ "t0").2
          ⟨34, some (JValue.obj [("token_id", JValue.str "7"),
            ("metadata", JValue.obj [("x", JValue.num 1)])]),
           none, none, none, none⟩ "t1").2.nft_store
        = (submit_handler initState
            ⟨34, some (JValue.obj [("token_id", JValue.str "7"),
              ("metadata", JValue.obj [("x", JValue.num 1)])]),
             none, none, none, none⟩ "t0").2.nft_store)
    ∧ submit_handler (submit_handler initState
        ⟨34, some (JValue.obj [("token_id", JValue.str "7"),
          ("metadata", JValue.obj [("x", JValue.num 1)])]),
         none, none, none, none⟩ "t0").2
        ⟨34, some (JValue.obj [("token_id", JValue.str "7"),
          ("metadata", JValue.obj [("x", JValue.num 1)])]),
         none, none, none, none⟩ "t1"
      = (SubmitResponse.ok 34, (submit_handler initState
          ⟨34, some (JValue.obj [("token_id", JValue.str "7"),
            ("metadata", JValue.obj [("x", JValue.num 1)])]),
           none, none, none, none⟩ "t0").2) :=
  ⟨submit_duplicate_silent_skip.1 _ _ "t1" _ rfl rfl rfl,
   submit_duplicate_silent_skip.2 initState _ "t0" "t1" _ (JValue.str "7")
     rfl rfl rfl⟩

/-- C4 counterexample: the claim "the stored owner is the X-User header
if present" fails for a present-but-empty header. With X-User set to the
empty string and a body owner "bob", the created record stores owner
"bob", not the header value "". -/
theorem submit_owner_header_counterexample :
    storeLookup (submit_handler initState
        ⟨30, some (JValue.obj [("token_id", JValue.str "9"),
                               ("owner", JValue.str "bob")]),
         none, none, some "", none⟩ "t0").2.nft_store "9"
      = some ⟨JValue.str "bob", JValue.obj [], "t0"⟩
    ∧ JValue.str "bob" ≠ JValue.str "" :=
  ⟨rfl, by simp⟩

/-- C4 amended: for every submit request that creates a record, the
stored owner follows the precedence: the X-User header if present AND
non-empty, else the owner field of the parsed body, else "unknown"; the
record also stores the body's metadata (default empty mapping) and the
server-captured timestamp. -/
theorem submit_owner_precedence (st : ServerState) (req : SubmitRequest)
    (now : String) (kvs : List (String × JValue))
    (hp : req.parsed = some (JValue.obj kvs))
    (hs : isMintShaped kvs = true)
    (hfresh : storeLookup st.nft_store
        (resolveTokenId st (objGet kvs "token_id")).1 = none) :
    storeLookup (submit_handler st req now).2.nft_store
        (resolveTokenId st (objGet kvs "token_id")).1
      = some ⟨(match req.x_user with
               | some u => if u ≠ "" then JValue.str u
                           else (objGet kvs "owner").getD (JValue.str "unknown")
               | none => (objGet kvs "owner").getD (JValue.str "unknown")),
              (objGet kvs "metadata").getD (JValue.obj []),
              now⟩ := by
  have hstore := resolveTokenId_store st (objGet kvs "token_id")
  have h1 := submit_state_after st req now kvs hp hs
  rw [hstore] at h1
  rw [h1, hfresh]
  simp only [Option.isNone_none, if_true]
  rw [storeLookup_append_self st.nft_store _ hfresh]
  congr 1
  congr 1
  cases req.x_user with
  | none => simp [headerOr]
  | some u =>
    by_cases he : u = ""
    · simp [headerOr, he]
    · simp [headerOr, he]

/-- C4 witness: the spec's example — body with token_id "7" and metadata,
header X-User alice — creates record "7" owned by alice. -/
theorem submit_owner_precedence_witness :
    storeLookup (submit_handler initState
        ⟨42, some (JValue.obj [("token_id", JValue.str "7"),
                               ("metadata", JValue.obj [("x", JValue.num 1)])]),
         none, none, some "alice", none⟩ "t1").2.nft_store "7"
      = some ⟨JValue.str "alice", JValue.obj [("x", JValue.num 1)], "t1"⟩ :=
  submit_owner_precedence initState
    ⟨42, some (JValue.obj [("token_id", JValue.str "7"),
               ("metadata", JValue.obj [("x", JValue.num 1)])]),
     none, none, some "alice", none⟩ "t1"
    [("token_id", JValue.str "7"),
     ("metadata", JValue.obj [("x", JValue.num 1)])] rfl rfl rfl

/-- C1 counterexample: the claim "an auto-generated id never collides
with an id already present in the table" fails. After an explicit mint of
id "1" (counter still 1), the next mint without token_id auto-generates
id "1", which is already present, and the call fails with the duplicate
error. -/
theorem autoId_collision_counterexample :
    stepAuto (mint_nft initState
        (Except.ok (JValue.obj [("token_id", JValue.str "1")])) "t0").2
        (Op.mintOp (Except.ok (JValue.obj [])) "t1")
      = some "1"
    ∧ (storeLookup (mint_nft initState
        (Except.ok (JValue.obj [("token_id", JValue.str "1")])) "t0").2.nft_store
        "1").isSome = true
    ∧ (mint_nft (mint_nft initState
        (Except.ok (JValue.obj [("token_id", JValue.str "1")])) "t0").2
        (Except.ok (JValue.obj [])) "t1").1
      = MintResponse.duplicate "Token ID 1 already exists" :=
  ⟨rfl, rfl, rfl⟩

/-- C1 amended: from process start, the auto-generating calls (mint or
submit without a truthy token_id) are assigned ids "1", "2", "3", … in
order of the auto-generations; the counter increments on exactly the
auto-generating calls, regardless of that call's later success or
failure, and explicit-id mints never consume a counter value; hence the
auto-generated ids are pairwise distinct — but an auto-generated id CAN
collide with an explicitly supplied id already in the table. -/
theorem autoId_sequence_spec :
    (∀ ops : List Op,
       autoIds initState ops
         = (List.range (countAutos initState ops)).map (fun i => toString (i + 1)))
    ∧ (∀ ops : List Op, (autoIds initState ops).Nodup)
    ∧ (∀ (st : ServerState) (op : Op),
         (stepState st op).next_token_id
           = st.next_token_id + (if opAutogenerates op then 1 else 0)) := by
  have hmain : ∀ ops : List Op,
      autoIds initState ops
        = (List.range (countAutos initState ops)).map (fun i => toString (i + 1)) := by
    intro ops
    rw [autoIds_spec]
    apply List.map_congr_left
    intro a _
    congr 1
    have h1 : initState.next_token_id = 1 := rfl
    omega
  have hinj : Function.Injective (fun i : Nat => toString (i + 1)) := by
    intro a b hab
    have h2 : a + 1 = b + 1 := natToString_injective hab
    omega
  exact ⟨hmain,
    fun ops => by
      rw [hmain ops]
      exact List.Nodup.map hinj (List.nodup_range (countAutos initState ops)),
    fun st op => next_token_id_step st op⟩
